import Mathlib

set_option maxRecDepth 8000

namespace Moniezi

/- The Batteries rational operations are irreducible by default; make them
unfold locally so that concrete engine runs can be evaluated by `decide`. -/
attribute [local semireducible] Rat.add Rat.sub Rat.mul Rat.inv

/-!
Shallow embedding of `src/services/insightsEngine.ts` (the insight-generation
engine of moniezi-v4) together with its dismissal store.

Modelling conventions:
* JS numbers are rationals (`ℚ`); a field that may be absent or non-numeric
  (where `Number(x)` yields `NaN`) is `Option ℚ`, with `none` standing for the
  non-numeric case, so that the source's `Number(x) || 0` becomes `numOr0`.
  The rational model has no infinities, so the `isFinite` fallback branch of
  `formatCurrency` cannot fire.
* Timestamps are milliseconds since the Unix epoch (`ℤ`); the local timezone
  is assumed to be UTC, so `startOfDay` truncates to a multiple of `msPerDay`.
* `new Date(s)` parsing is an oracle `pd : String → Option ℤ` supplied as a
  parameter (`none` = invalid date), and the ambient clock `new Date()` is a
  parameter `now : ℤ`.
* `localStorage` under the single key `moniezi_v4.dismissedInsights.v1` is a
  `StorageCell`, with explicit constructors for a throwing store, an absent or
  falsy raw value, raw text that is not valid JSON, and a parsed JSON value.
-/

def msPerDay : ℤ := 86400000

/-- `startOfDay` of a millisecond timestamp (UTC assumed). -/
def startOfDay (t : ℤ) : ℤ := msPerDay * Int.fdiv t msPerDay

/-- Day number (days since 1970-01-01) of a millisecond timestamp. -/
def dayOfMs (t : ℤ) : ℤ := Int.fdiv t msPerDay

/-- Civil date `(year, month, day)` from a day number, proleptic Gregorian
(the classical days-to-civil algorithm); month is 1-based. -/
def civilFromDays (z0 : ℤ) : ℤ × ℤ × ℤ :=
  let z := z0 + 719468
  let era := Int.fdiv z 146097
  let doe := z - era * 146097
  let yoe := Int.fdiv (doe - Int.fdiv doe 1460 + Int.fdiv doe 36524 - Int.fdiv doe 146096) 365
  let y := yoe + era * 400
  let doy := doe - (365 * yoe + Int.fdiv yoe 4 - Int.fdiv yoe 100)
  let mp := Int.fdiv (5 * doy + 2) 153
  let d := doy - Int.fdiv (153 * mp + 2) 5 + 1
  let m := mp + (if mp < 10 then 3 else -9)
  (y + (if m ≤ 2 then 1 else 0), m, d)

/-- Day number from a civil date (inverse of `civilFromDays`). -/
def daysFromCivil (y0 m d : ℤ) : ℤ :=
  let y := y0 - (if m ≤ 2 then 1 else 0)
  let era := Int.fdiv y 400
  let yoe := y - era * 400
  let doy := Int.fdiv (153 * (m + (if 2 < m then -3 else 9)) + 2) 5 + d - 1
  let doe := yoe * 365 + Int.fdiv yoe 4 - Int.fdiv yoe 100 + doy
  era * 146097 + doe - 719468

def yearOfDay (z : ℤ) : ℤ := (civilFromDays z).1

def monthOfDay (z : ℤ) : ℤ := (civilFromDays z).2.1

def pad2 (n : ℤ) : String := if n < 10 then "0" ++ toString n else toString n

/-- `isoDate`: `d.toISOString().slice(0, 10)` of a millisecond timestamp. -/
def isoDate (t : ℤ) : String :=
  let c := civilFromDays (dayOfMs t)
  toString c.1 ++ "-" ++ pad2 c.2.1 ++ "-" ++ pad2 c.2.2

/-- `today.toISOString().slice(0, 7)` of a day number. -/
def monthKeyOfDay (z : ℤ) : String :=
  toString (yearOfDay z) ++ "-" ++ pad2 (monthOfDay z)

/-- `Number(x) || 0`: a non-numeric field coerces to `0`. -/
def numOr0 : Option ℚ → ℚ
  | none => 0
  | some q => q

/-- `Math.abs(Number(x) || 0)`. -/
def absNum (a : Option ℚ) : ℚ := |numOr0 a|

def padZeros (s : String) (d : ℕ) : String :=
  String.mk (List.replicate (d - s.length) '0') ++ s

/-- `Number.prototype.toFixed(d)` on a rational: the sign is split off, the
magnitude is rounded half-up at `d` decimal places, and the fractional part is
zero-padded to `d` digits. -/
def ratToFixed (q : ℚ) (d : ℕ) : String :=
  let sign := if q < 0 then "-" else ""
  let x := |q|
  let n : ℕ := (x * (10 : ℚ) ^ d + 1 / 2).floor.toNat
  let ip := n / 10 ^ d
  let fp := n % 10 ^ d
  if d = 0 then sign ++ toString ip
  else sign ++ toString ip ++ "." ++ padZeros (toString fp) d

/-- `formatCurrency` (the `isFinite` guard of the source is vacuous in the
rational model, where every value is finite). -/
def formatCurrency (amount : ℚ) (currencySymbol : String) : String :=
  currencySymbol ++ ratToFixed amount 2

/-- A transaction record; `amount` is `none` when absent/non-numeric, `date`
and `category` are `none` when absent. -/
structure Transaction where
  type : String
  amount : Option ℚ
  category : Option String
  date : Option String
deriving DecidableEq

structure Invoice where
  status : Option String
  amount : Option ℚ
  due : Option String
deriving DecidableEq

structure TaxPayment where
  amount : Option ℚ
  date : Option String
deriving DecidableEq

structure UserSettings where
  currencySymbol : Option String
  taxRate : Option ℚ
  stateTaxRate : Option ℚ
deriving DecidableEq

/-- The argument object of `generateInsights`; each list may be `null` or
`undefined` (`none`), as may the settings object. -/
structure Args where
  transactions : Option (List Transaction)
  invoices : Option (List Invoice)
  taxPayments : Option (List TaxPayment)
  settings : Option UserSettings
deriving DecidableEq

inductive InsightType where
  | alert
  | warning
  | info
  | positive
deriving DecidableEq

inductive InsightCategory where
  | spending
  | cashflow
  | invoices
  | tax
  | patterns
deriving DecidableEq

structure Insight where
  id : String
  type : InsightType
  category : InsightCategory
  title : String
  message : String
  recommendation : Option String
  priority : ℤ
deriving DecidableEq

/-- `parseDate` applied through the optional chain: an absent date string is an
invalid date. -/
def parseDateOpt (pd : String → Option ℤ) : Option String → Option ℤ
  | none => none
  | some s => pd s

/-- `sumTx`. -/
def sumTx (transactions : List Transaction) (ty : String) : ℚ :=
  (transactions.filter (fun t => decide (t.type = ty))).foldl
    (fun s t => s + absNum t.amount) 0

/-- `txInLastDays`: transactions whose date parses and lies on/after
`startOfDay(now) - days`. -/
def txInLastDays (pd : String → Option ℤ) (now : ℤ)
    (transactions : List Transaction) (days : ℤ) : List Transaction :=
  let cutoff := startOfDay now - days * msPerDay
  transactions.filter (fun t =>
    match parseDateOpt pd t.date with
    | some d => decide (cutoff ≤ d)
    | none => false)

/-- `txBetweenDaysAgo`: range `[today - startDaysAgo, today - endDaysAgo)`. -/
def txBetweenDaysAgo (pd : String → Option ℤ) (now : ℤ)
    (transactions : List Transaction) (startDaysAgo endDaysAgo : ℤ) : List Transaction :=
  let endT := startOfDay now - endDaysAgo * msPerDay
  let startT := startOfDay now - startDaysAgo * msPerDay
  transactions.filter (fun t =>
    match parseDateOpt pd t.date with
    | some d => decide (startT ≤ d ∧ d < endT)
    | none => false)

/-- Stable insertion used by `isort`. -/
def insertLe {α : Type} (le : α → α → Bool) (a : α) : List α → List α
  | [] => [a]
  | b :: l => if le a b then a :: b :: l else b :: insertLe le a l

/-- Stable sort (models `Array.prototype.sort` with a consistent comparator,
which is stable per the ECMAScript specification). -/
def isort {α : Type} (le : α → α → Bool) : List α → List α
  | [] => []
  | a :: l => insertLe le a (isort le l)

/-- `settings?.currencySymbol || '$'`. -/
def currencySymbolOf : Option UserSettings → String
  | none => "$"
  | some s =>
    match s.currencySymbol with
    | none => "$"
    | some c => if c = "" then "$" else c

/-- Rule 1 of `generateInsights`: spending change, last 30 vs previous 30. -/
def spendingRule (pd : String → Option ℤ) (now : ℤ) (cs monthKey : String)
    (transactions : List Transaction) : List Insight :=
  let last30 := txInLastDays pd now transactions 30
  let prev30 := txBetweenDaysAgo pd now transactions 60 30
  let spendLast30 := sumTx last30 "expense"
  let spendPrev30 := sumTx prev30 "expense"
  if 0 < spendPrev30 ∧ 0 < spendLast30 then
    let changePct := (spendLast30 - spendPrev30) / spendPrev30 * 100
    if 20 ≤ changePct then
      [{ id := "spending_increase_" ++ monthKey
         type := .warning
         category := .spending
         title := "Spending Increased vs Last Month"
         message := "Your last 30 days spending is up " ++ ratToFixed changePct 1 ++
           "% (" ++ formatCurrency spendLast30 cs ++ " vs " ++
           formatCurrency spendPrev30 cs ++ ")."
         recommendation := some "Review your biggest expense categories and cut one non-essential item this week."
         priority := 8 }]
    else if changePct ≤ -15 then
      [{ id := "spending_decrease_" ++ monthKey
         type := .positive
         category := .spending
         title := "Nice Work Reducing Spending"
         message := "Your spending dropped " ++ ratToFixed |changePct| 1 ++
           "% compared to the previous 30 days."
         recommendation := some "Consider moving part of the savings toward taxes or a financial buffer."
         priority := 6 }]
    else []
  else []

/-- Rule 2 of `generateInsights`: cashflow over the last 30 days. -/
def cashflowRule (pd : String → Option ℤ) (now : ℤ) (cs monthKey : String)
    (transactions : List Transaction) : List Insight :=
  let last30 := txInLastDays pd now transactions 30
  let income := sumTx last30 "income"
  let expenses := sumTx last30 "expense"
  let net := income - expenses
  if 0 < income ∨ 0 < expenses then
    let ratioPct := if 0 < income then net / income * 100 else -100
    if net < 0 then
      [{ id := "cashflow_negative_" ++ monthKey
         type := .alert
         category := .cashflow
         title := "Negative Cash Flow"
         message := "You spent " ++ formatCurrency |net| cs ++
           " more than you earned in the last 30 days."
         recommendation := some "Reduce expenses for 7 days and add at least one new income entry or invoice."
         priority := 10 }]
    else if 0 < income ∧ ratioPct < 10 then
      [{ id := "cashflow_low_savings_" ++ monthKey
         type := .warning
         category := .cashflow
         title := "Low Savings Rate"
         message := "You saved about " ++ ratToFixed ratioPct 1 ++
           "% of income in the last 30 days."
         recommendation := some "Aim for 15–20%. Pick one category to reduce by 10% this month."
         priority := 8 }]
    else if 0 < income ∧ 20 ≤ ratioPct then
      [{ id := "cashflow_good_" ++ monthKey
         type := .positive
         category := .cashflow
         title := "Healthy Cash Flow"
         message := "You saved about " ++ ratToFixed ratioPct 1 ++
           "% of income in the last 30 days (" ++ formatCurrency net cs ++ ")."
         recommendation := some "Nice. Consider allocating a fixed % to taxes and a buffer."
         priority := 6 }]
    else []
  else []

/-- `(t.category || 'Uncategorized').trim() || 'Uncategorized'`. -/
def catOf (c : Option String) : String :=
  let c1 := match c with
    | none => "Uncategorized"
    | some s => if s = "" then "Uncategorized" else s
  let c2 := c1.trim
  if c2 = "" then "Uncategorized" else c2

/-- `byCat.set(cat, (byCat.get(cat) || 0) + v)` on an insertion-ordered map. -/
def upsert (k : String) (v : ℚ) : List (String × ℚ) → List (String × ℚ)
  | [] => [(k, v)]
  | (k0, v0) :: rest =>
    if k0 = k then (k0, v0 + v) :: rest else (k0, v0) :: upsert k v rest

/-- `.replace(/\s+/g, '_')`: each maximal whitespace run becomes one `_`. -/
def squashWs (s : String) : String :=
  let r := s.data.foldl
    (fun (acc : List Char × Bool) c =>
      if c.isWhitespace then
        if acc.2 then acc else ('_' :: acc.1, true)
      else (c :: acc.1, false))
    ([], false)
  String.mk r.1.reverse

/-- Rule 3 of `generateInsights`: top expense category concentration. -/
def patternRule (pd : String → Option ℤ) (now : ℤ) (monthKey : String)
    (transactions : List Transaction) : List Insight :=
  let last30 := (txInLastDays pd now transactions 30).filter
    (fun t => decide (t.type = "expense"))
  let total := last30.foldl (fun s t => s + absNum t.amount) 0
  if 0 < total then
    let byCat := last30.foldl
      (fun m t => upsert (catOf t.category) (absNum t.amount) m) []
    match (isort (fun a b => decide (b.2 ≤ a.2)) byCat).head? with
    | none => []
    | some top =>
      let pct := top.2 / total * 100
      if 45 ≤ pct then
        [{ id := "pattern_top_category_" ++ monthKey ++ "_" ++ squashWs top.1.toLower
           type := .info
           category := .patterns
           title := "Top Spend Category: " ++ top.1
           message := ratToFixed pct 1 ++ "% of your last 30 days spending is in \"" ++
             top.1 ++ "\"."
           recommendation := some "If this is essential, set a budget. If it’s optional, cap it for the next 2 weeks."
           priority := 5 }]
      else []
  else []

/-- The overdue predicate of rule 4: unpaid and `startOfDay(due) < today`
(the `!inv` null-check of the source is vacuous under the typed model). -/
def isOverdue (pd : String → Option ℤ) (today : ℤ) (inv : Invoice) : Bool :=
  decide (inv.status = some "unpaid") &&
    (match parseDateOpt pd inv.due with
     | some due => decide (startOfDay due < today)
     | none => false)

/-- Rule 4 of `generateInsights`: overdue / many unpaid invoices. -/
def invoiceRule (pd : String → Option ℤ) (now : ℤ) (cs monthKey : String)
    (invoices : List Invoice) : List Insight :=
  let today := startOfDay now
  let overdue := invoices.filter (isOverdue pd today)
  if 0 < overdue.length then
    let earliest := (isort (fun a b => decide (a ≤ b))
      ((overdue.map (fun inv => parseDateOpt pd inv.due)).filterMap id)).head?
    let totalDue := overdue.foldl (fun s inv => s + absNum inv.amount) 0
    [{ id := "invoice_overdue_" ++
         (match earliest with | some e => isoDate e | none => monthKey)
       type := .alert
       category := .invoices
       title := "Overdue Invoices (" ++ toString overdue.length ++ ")"
       message := "You have " ++ toString overdue.length ++
         " unpaid invoice(s) past due totaling about " ++
         formatCurrency totalDue cs ++ "."
       recommendation := some "Send a friendly reminder today. Consider adding late terms for future invoices."
       priority := 9 }]
  else
    let unpaid := invoices.filter (fun inv => decide (inv.status = some "unpaid"))
    if 5 ≤ unpaid.length then
      [{ id := "invoice_unpaid_many_" ++ monthKey
         type := .warning
         category := .invoices
         title := "Many Unpaid Invoices"
         message := "You currently have " ++ toString unpaid.length ++ " unpaid invoices."
         recommendation := some "Batch-send reminders and mark paid invoices in the app to keep totals accurate."
         priority := 7 }]
    else []

/-- `String.prototype/String.startsWith` on the character level (the built-in
byte-level `String.startsWith` does not reduce, so the prefix test of the tax
rule is modelled structurally on the character list). -/
def strStartsWith (s p : String) : Bool := p.data.isPrefixOf s.data

/-- Rule 5 of `generateInsights`: tax funding reminder (YTD estimate). -/
def taxRule (now : ℤ) (cs : String) (transactions : List Transaction)
    (taxPayments : List TaxPayment) (settings : Option UserSettings) : List Insight :=
  let today := startOfDay now
  let year := yearOfDay (dayOfMs today)
  let month := monthOfDay (dayOfMs today) - 1
  let ytdIncome := (transactions.filter (fun t =>
      decide (t.type = "income") &&
        (match t.date with
         | some s => strStartsWith s (toString year)
         | none => false))).foldl (fun s t => s + absNum t.amount) 0
  let ytdTaxPaid := (taxPayments.filter (fun p =>
      match p.date with
      | some s => strStartsWith s (toString year)
      | none => false)).foldl (fun s p => s + absNum p.amount) 0
  let totalRate := numOr0 (settings.bind UserSettings.taxRate) +
    numOr0 (settings.bind UserSettings.stateTaxRate)
  let estTax := ytdIncome * (totalRate / 100)
  if 0 < ytdIncome ∧ 0 < totalRate then
    let fundedPct := if 0 < estTax then ytdTaxPaid / estTax * 100 else 0
    if fundedPct < 60 ∧ 2 ≤ month then
      [{ id := "tax_underfunded_" ++ toString year ++ "_" ++ toString (month + 1)
         type := .warning
         category := .tax
         title := "Tax Payments May Be Behind"
         message := "Estimated tax on YTD income is about " ++ formatCurrency estTax cs ++
           ". You\x27ve logged " ++ formatCurrency ytdTaxPaid cs ++ " (~" ++
           ratToFixed fundedPct 0 ++ "%)."
         recommendation := some "Consider setting aside a fixed % of each income transaction and logging estimated payments."
         priority := 7 }]
    else if 80 ≤ fundedPct ∧ 0 < ytdTaxPaid then
      [{ id := "tax_ontrack_" ++ toString year
         type := .positive
         category := .tax
         title := "Tax Funding Looks On Track"
         message := "You’ve logged about " ++ ratToFixed fundedPct 0 ++
           "% of your estimated YTD tax."
         recommendation := some "Keep the habit—consistency beats surprises."
         priority := 5 }]
    else []
  else []

/-- Comparator of the final `insights.sort((a, b) => b.priority - a.priority)`:
descending priority, stable. -/
def prioGe (a b : Insight) : Bool := decide (b.priority ≤ a.priority)

/-- `generateInsights`. -/
def generateInsights (pd : String → Option ℤ) (now : ℤ) (args : Args) : List Insight :=
  let currencySymbol := currencySymbolOf args.settings
  let today := startOfDay now
  let monthKey := monthKeyOfDay (dayOfMs today)
  match args.transactions with
  | none => []
  | some transactions =>
    if transactions.length = 0 then []
    else
      isort prioGe
        (spendingRule pd now currencySymbol monthKey transactions ++
         cashflowRule pd now currencySymbol monthKey transactions ++
         patternRule pd now monthKey transactions ++
         invoiceRule pd now currencySymbol monthKey (args.invoices.getD []) ++
         taxRule now currencySymbol transactions (args.taxPayments.getD []) args.settings)

/-- A JSON value, as produced by `JSON.parse`. -/
inductive Json where
  | null
  | bool (b : Bool)
  | num (q : ℚ)
  | str (s : String)
  | arr (elems : List Json)
  | obj (fields : List (String × Json))

/-- State of the `localStorage` slot under `moniezi_v4.dismissedInsights.v1`:
the store may throw on access, the key may be absent (or hold a falsy raw
string), the raw text may fail `JSON.parse`, or it parses to a JSON value. -/
inductive StorageCell where
  | unavailable
  | empty
  | corrupt
  | stored (v : Json)

def jsonStr : Json → Option String
  | .str s => some s
  | _ => none

/-- `getDismissedInsightIds`: every failure path degrades to `[]`; a stored
array keeps exactly its string elements. -/
def getDismissedInsightIds : StorageCell → List String
  | .unavailable => []
  | .empty => []
  | .corrupt => []
  | .stored v =>
    match v with
    | .arr l => l.filterMap jsonStr
    | _ => []

/-- One step of `new Set(ids)` construction (first occurrence kept). -/
def dedupStep (acc : List String) (x : String) : List String :=
  if x ∈ acc then acc else acc ++ [x]

/-- `Array.from(new Set(ids))`: deduplication keeping first occurrences in
order (the `typeof x === 'string'` filter is vacuous on typed input). -/
def jsDedup (ids : List String) : List String := ids.foldl dedupStep []

/-- `setDismissedInsightIds`: on a throwing store the write failure is
swallowed and the state is unchanged; otherwise the slot now holds the JSON
array of the deduplicated ids. -/
def setDismissedInsightIds (ids : List String) : StorageCell → StorageCell
  | .unavailable => .unavailable
  | _ => .stored (.arr ((jsDedup ids).map Json.str))

/-- Modelled from the spec: the store's add operation (`dismissInsightId` is
imported by the dashboard but absent from the sources); per the spec it is an
idempotent union of one id into the stored set — read the current ids, append
the id, write the result back. -/
def dismissInsightId (i : String) (st : StorageCell) : StorageCell :=
  setDismissedInsightIds (getDismissedInsightIds st ++ [i]) st

/-- `getInsightCount`: generated insights minus dismissed ids (in the total
model neither the generator nor the store can throw, so the catch-all branch
of the source is vacuous). -/
def getInsightCount (pd : String → Option ℤ) (now : ℤ) (st : StorageCell)
    (args : Args) : ℕ :=
  let all := generateInsights pd now args
  let dismissed := getDismissedInsightIds st
  (all.filter (fun i => decide (i.id ∉ dismissed))).length

/-- Amount normalization: replacing a non-numeric amount by an explicit `0`. -/
def normAmt : Option ℚ → Option ℚ
  | none => some 0
  | some q => some q

def normTx (t : Transaction) : Transaction := { t with amount := normAmt t.amount }

def normInv (inv : Invoice) : Invoice := { inv with amount := normAmt inv.amount }

def normPay (p : TaxPayment) : TaxPayment := { p with amount := normAmt p.amount }

/-- The whole argument object with every non-numeric amount replaced by `0`. -/
def normArgs (a : Args) : Args :=
  { transactions := a.transactions.map (List.map normTx)
    invoices := a.invoices.map (List.map normInv)
    taxPayments := a.taxPayments.map (List.map normPay)
    settings := a.settings }

/-- Net over the whole transaction list (total income minus total expenses),
the quantity named by the literal reading of the cash-flow claim. -/
def netTotal (transactions : List Transaction) : ℚ :=
  sumTx transactions "income" - sumTx transactions "expense"

/-- The overdue predicate as the spec's sentence literally states it: unpaid
and due date strictly earlier than one day before today. -/
def isOverdueSpec (pd : String → Option ℤ) (today : ℤ) (inv : Invoice) : Bool :=
  decide (inv.status = some "unpaid") &&
    (match parseDateOpt pd inv.due with
     | some due => decide (startOfDay due < today - msPerDay)
     | none => false)

/-! Concrete fixtures used by the example theorems, counterexamples and
witnesses below.  `exPd` is a date-parse oracle agreeing with JS `new Date`
on the few ISO date strings the fixtures use (UTC midnight), and `exNow` is
the fixture clock 2024-05-10T00:00Z. -/

def exD : ℤ := daysFromCivil 2024 5 10

def exNow : ℤ := msPerDay * exD

def exPd : String → Option ℤ := fun s =>
  if s = "2024-05-09" then some (msPerDay * (exD - 1))
  else if s = "2024-04-30" then some (msPerDay * (exD - 10))
  else if s = "2024-04-01" then some (msPerDay * daysFromCivil 2024 4 1)
  else if s = "2019-01-01" then some (msPerDay * daysFromCivil 2019 1 1)
  else none

/-- One unpaid invoice due exactly yesterday (2024-05-09 against a 2024-05-10
clock), plus a dateless income transaction so the generator's data guard
passes. -/
def exArgsC1 : Args :=
  ⟨some [⟨"income", some 1, none, none⟩],
   some [⟨some "unpaid", some 50, some "2024-05-09"⟩], some [], none⟩

/-- One unpaid invoice due ten days ago. -/
def exArgsC1w : Args :=
  ⟨some [⟨"income", some 1, none, none⟩],
   some [⟨some "unpaid", some 50, some "2024-04-30"⟩], some [], none⟩

/-- A single expense dated years before the trailing window. -/
def exArgsC2 : Args :=
  ⟨some [⟨"expense", some 100, none, some "2019-01-01"⟩], some [], some [], none⟩

/-- A single expense dated yesterday. -/
def exArgsC2w : Args :=
  ⟨some [⟨"expense", some 100, none, some "2024-05-09"⟩], some [], some [], none⟩

/-- An expense of 130 in the last 30 days and one of 100 in the preceding
30-day window (a 30% rise). -/
def exArgsC3 : Args :=
  ⟨some [⟨"expense", some 130, none, some "2024-05-09"⟩,
         ⟨"expense", some 100, none, some "2024-04-01"⟩], some [], some [], none⟩

def exNowC4 : ℤ := msPerDay * daysFromCivil 2025 6 15

def exPdC4 : String → Option ℤ := fun s =>
  if s = "2025-01-15" then some (msPerDay * daysFromCivil 2025 1 15) else none

/-- The spec's tax example: one income of 1000, no tax payments, tax rates
15 and 5, evaluated in June 2025. -/
def exArgsC4 : Args :=
  ⟨some [⟨"income", some 1000, none, some "2025-01-15"⟩], some [], some [],
   some ⟨none, some 15, some 5⟩⟩

/-- Malformed input: non-numeric amounts and unparseable dates everywhere. -/
def exArgsC9 : Args :=
  ⟨some [⟨"expense", none, none, some "garbage"⟩],
   some [⟨some "unpaid", none, some "also garbage"⟩], some [⟨none, none⟩], none⟩

/-! Helper lemmas. -/

theorem mem_insertLe {α : Type} (le : α → α → Bool) (a x : α) (l : List α) :
    x ∈ insertLe le a l ↔ x = a ∨ x ∈ l := by
  induction l with
  | nil => simp [insertLe]
  | cons b l ih =>
    simp only [insertLe]
    split
    · simp [List.mem_cons]
    · simp only [List.mem_cons, ih]
      tauto

theorem mem_isort {α : Type} (le : α → α → Bool) (x : α) (l : List α) :
    x ∈ isort le l ↔ x ∈ l := by
  induction l with
  | nil => simp [isort]
  | cons a l ih => simp [isort, mem_insertLe, ih]

theorem spendingRule_cat (pd : String → Option ℤ) (now : ℤ) (cs mk : String)
    (ts : List Transaction) :
    ∀ i ∈ spendingRule pd now cs mk ts, i.category = .spending := by
  intro i hi
  simp only [spendingRule] at hi
  repeat' split at hi
  all_goals (try exact absurd hi (List.not_mem_nil i))
  all_goals (rw [List.mem_singleton] at hi; subst hi; rfl)

theorem cashflowRule_cat (pd : String → Option ℤ) (now : ℤ) (cs mk : String)
    (ts : List Transaction) :
    ∀ i ∈ cashflowRule pd now cs mk ts, i.category = .cashflow := by
  intro i hi
  simp only [cashflowRule] at hi
  repeat' split at hi
  all_goals (try exact absurd hi (List.not_mem_nil i))
  all_goals (rw [List.mem_singleton] at hi; subst hi; rfl)

theorem patternRule_cat (pd : String → Option ℤ) (now : ℤ) (mk : String)
    (ts : List Transaction) :
    ∀ i ∈ patternRule pd now mk ts, i.category = .patterns := by
  intro i hi
  simp only [patternRule] at hi
  repeat' split at hi
  all_goals (try exact absurd hi (List.not_mem_nil i))
  all_goals (rw [List.mem_singleton] at hi; subst hi; rfl)

theorem taxRule_cat (now : ℤ) (cs : String) (ts : List Transaction)
    (ps : List TaxPayment) (os : Option UserSettings) :
    ∀ i ∈ taxRule now cs ts ps os, i.category = .tax := by
  intro i hi
  simp only [taxRule] at hi
  repeat' split at hi
  all_goals (try exact absurd hi (List.not_mem_nil i))
  all_goals (rw [List.mem_singleton] at hi; subst hi; rfl)

theorem invoiceRule_cat (pd : String → Option ℤ) (now : ℤ) (cs mk : String)
    (invs : List Invoice) :
    ∀ i ∈ invoiceRule pd now cs mk invs, i.category = .invoices := by
  intro i hi
  simp only [invoiceRule] at hi
  repeat' split at hi
  all_goals (try exact absurd hi (List.not_mem_nil i))
  all_goals (rw [List.mem_singleton] at hi; subst hi; rfl)

theorem mem_generateInsights (pd : String → Option ℤ) (now : ℤ) (args : Args)
    (ts : List Transaction) (hts : args.transactions = some ts) (hne : ts ≠ [])
    (i : Insight) :
    i ∈ generateInsights pd now args ↔
      (i ∈ spendingRule pd now (currencySymbolOf args.settings)
          (monthKeyOfDay (dayOfMs (startOfDay now))) ts ∨
       i ∈ cashflowRule pd now (currencySymbolOf args.settings)
          (monthKeyOfDay (dayOfMs (startOfDay now))) ts ∨
       i ∈ patternRule pd now (monthKeyOfDay (dayOfMs (startOfDay now))) ts ∨
       i ∈ invoiceRule pd now (currencySymbolOf args.settings)
          (monthKeyOfDay (dayOfMs (startOfDay now))) (args.invoices.getD []) ∨
       i ∈ taxRule now (currencySymbolOf args.settings) ts
          (args.taxPayments.getD []) args.settings) := by
  have hlen : ts.length ≠ 0 := by simpa using hne
  simp only [generateInsights, hts]
  rw [if_neg hlen]
  simp [mem_isort, List.mem_append, or_assoc]

theorem invoiceRule_alert_facts (pd : String → Option ℤ) (now : ℤ) (cs mk : String)
    (invs : List Invoice) :
    ((∃ i ∈ invoiceRule pd now cs mk invs, i.type = .alert) ↔
      0 < (invs.filter (isOverdue pd (startOfDay now))).length) ∧
    (∀ i ∈ invoiceRule pd now cs mk invs, i.type = .alert →
      i.title = "Overdue Invoices (" ++
        toString (invs.filter (isOverdue pd (startOfDay now))).length ++ ")") := by
  simp only [invoiceRule]
  split
  case isTrue h =>
    refine ⟨⟨fun _ => h, fun _ => ⟨_, List.mem_singleton_self _, rfl⟩⟩, ?_⟩
    intro i hi _
    rw [List.mem_singleton] at hi
    subst hi
    rfl
  case isFalse h =>
    constructor
    · constructor
      · rintro ⟨i, hi, hty⟩
        split at hi
        · rw [List.mem_singleton] at hi; subst hi; simp at hty
        · exact absurd hi (List.not_mem_nil i)
      · intro hpos; exact absurd hpos h
    · intro i hi hty
      split at hi
      · rw [List.mem_singleton] at hi; subst hi; simp at hty
      · exact absurd hi (List.not_mem_nil i)

theorem isOverdue_iff (pd : String → Option ℤ) (today : ℤ) (inv : Invoice) :
    isOverdue pd today inv = true ↔
      (inv.status = some "unpaid" ∧
        ∃ d, parseDateOpt pd inv.due = some d ∧ startOfDay d < today) := by
  cases h : parseDateOpt pd inv.due <;>
    simp [isOverdue, h]

theorem absNum_nonneg (a : Option ℚ) : 0 ≤ absNum a := abs_nonneg _

theorem foldl_add_absNum_le (l : List Transaction) (s : ℚ) :
    s ≤ l.foldl (fun a t => a + absNum t.amount) s := by
  induction l generalizing s with
  | nil => exact le_refl s
  | cons t l ih => exact le_trans (le_add_of_nonneg_right (absNum_nonneg _)) (ih _)

theorem sumTx_nonneg (l : List Transaction) (ty : String) : 0 ≤ sumTx l ty :=
  foldl_add_absNum_le _ 0

theorem sumTx_pos_ne_nil (l : List Transaction) (ty : String)
    (h : 0 < sumTx l ty) : l ≠ [] := by
  intro he
  rw [he] at h
  simp only [sumTx, List.filter_nil, List.foldl_nil] at h
  exact lt_irrefl 0 h

theorem txInLastDays_nil (pd : String → Option ℤ) (now days : ℤ) :
    txInLastDays pd now [] days = [] := rfl

theorem txBetweenDaysAgo_nil (pd : String → Option ℤ) (now a b : ℤ) :
    txBetweenDaysAgo pd now [] a b = [] := rfl

/-! Claim C1. -/

/-- C1, counterexample: the spec's overdue rule (due date strictly earlier
than one day before today) disagrees with the code.  With today = 2024-05-10
and a single unpaid invoice due 2024-05-09 (yesterday), no invoice satisfies
the spec's rule, yet the generator emits the invoices-category alert. -/
theorem overdue_one_day_rule_cex :
    ¬ ((∃ i ∈ generateInsights exPd exNow exArgsC1,
          i.category = .invoices ∧ i.type = .alert) ↔
        0 < ((exArgsC1.invoices.getD []).filter
          (isOverdueSpec exPd (startOfDay exNow))).length) := by
  decide

/-- C1 (amended): an invoice is counted as overdue iff its status is unpaid
and its due date parses to a date whose start of day is strictly earlier than
today's start of day (so an invoice due yesterday already counts); whenever
the transactions argument is a non-empty list, the invoices-category alert
finding exists iff at least one invoice is overdue in that sense, and its
title reports exactly the number of such invoices. -/
theorem overdue_finding_matches_code_rule (pd : String → Option ℤ) (now : ℤ)
    (args : Args) (ts : List Transaction)
    (hts : args.transactions = some ts) (hne : ts ≠ []) :
    (∀ inv : Invoice, isOverdue pd (startOfDay now) inv = true ↔
        (inv.status = some "unpaid" ∧
          ∃ d, parseDateOpt pd inv.due = some d ∧ startOfDay d < startOfDay now)) ∧
    ((∃ i ∈ generateInsights pd now args,
        i.category = .invoices ∧ i.type = .alert) ↔
      0 < ((args.invoices.getD []).filter (isOverdue pd (startOfDay now))).length) ∧
    (∀ i ∈ generateInsights pd now args, i.category = .invoices → i.type = .alert →
      i.title = "Overdue Invoices (" ++
        toString ((args.invoices.getD []).filter (isOverdue pd (startOfDay now))).length
        ++ ")") := by
  obtain ⟨hiff, htitle⟩ := invoiceRule_alert_facts pd now (currencySymbolOf args.settings)
    (monthKeyOfDay (dayOfMs (startOfDay now))) (args.invoices.getD [])
  refine ⟨fun inv => isOverdue_iff pd (startOfDay now) inv, ⟨?_, ?_⟩, ?_⟩
  · rintro ⟨i, hi, hcat, hty⟩
    rw [mem_generateInsights pd now args ts hts hne] at hi
    rcases hi with h1 | h2 | h3 | h4 | h5
    · rw [spendingRule_cat pd now _ _ ts i h1] at hcat; exact absurd hcat (by decide)
    · rw [cashflowRule_cat pd now _ _ ts i h2] at hcat; exact absurd hcat (by decide)
    · rw [patternRule_cat pd now _ ts i h3] at hcat; exact absurd hcat (by decide)
    · exact hiff.mp ⟨i, h4, hty⟩
    · rw [taxRule_cat now _ ts _ _ i h5] at hcat; exact absurd hcat (by decide)
  · intro hpos
    obtain ⟨i, hi, hty⟩ := hiff.mpr hpos
    exact ⟨i, (mem_generateInsights pd now args ts hts hne i).mpr
      (Or.inr (Or.inr (Or.inr (Or.inl hi)))),
      invoiceRule_cat pd now _ _ _ i hi, hty⟩
  · intro i hi hcat hty
    rw [mem_generateInsights pd now args ts hts hne] at hi
    rcases hi with h1 | h2 | h3 | h4 | h5
    · rw [spendingRule_cat pd now _ _ ts i h1] at hcat; exact absurd hcat (by decide)
    · rw [cashflowRule_cat pd now _ _ ts i h2] at hcat; exact absurd hcat (by decide)
    · rw [patternRule_cat pd now _ ts i h3] at hcat; exact absurd hcat (by decide)
    · exact htitle i h4 hty
    · rw [taxRule_cat now _ ts _ _ i h5] at hcat; exact absurd hcat (by decide)

/-- C1, witness: the amended theorem applied to the concrete fixture with one
unpaid invoice due ten days ago. -/
theorem overdue_finding_matches_code_rule_witness :
    (∃ i ∈ generateInsights exPd exNow exArgsC1w,
        i.category = .invoices ∧ i.type = .alert) ↔
      0 < ((exArgsC1w.invoices.getD []).filter
        (isOverdue exPd (startOfDay exNow))).length :=
  (overdue_finding_matches_code_rule exPd exNow exArgsC1w _ rfl (by decide)).2.1

/-! Claim C2. -/

/-- C2, counterexample: a transaction set whose total net (income minus
expenses over all records) is negative, for which the generator emits no
high-severity cash-flow finding, because its only expense lies years outside
the trailing 30-day window the code actually uses. -/
theorem negative_total_net_cex :
    netTotal (exArgsC2.transactions.getD []) < 0 ∧
    ¬ ∃ i ∈ generateInsights exPd exNow exArgsC2,
        i.category = .cashflow ∧ i.type = .alert := by
  decide

/-- C2 (amended): for every argument object whose transactions list is
present, if net income minus expenses over the trailing 30-day window is
negative, the generator's output contains an alert-severity cash-flow
finding. -/
theorem negative_window_net_alert (pd : String → Option ℤ) (now : ℤ) (args : Args)
    (ts : List Transaction) (hts : args.transactions = some ts)
    (hneg : sumTx (txInLastDays pd now ts 30) "income" -
        sumTx (txInLastDays pd now ts 30) "expense" < 0) :
    ∃ i ∈ generateInsights pd now args, i.category = .cashflow ∧ i.type = .alert := by
  have hexp : 0 < sumTx (txInLastDays pd now ts 30) "expense" := by
    have h0 := sumTx_nonneg (txInLastDays pd now ts 30) "income"
    linarith
  have hne : ts ≠ [] := by
    intro he
    rw [he, txInLastDays_nil] at hexp
    simp only [sumTx, List.filter_nil, List.foldl_nil] at hexp
    exact lt_irrefl 0 hexp
  have hrule : cashflowRule pd now (currencySymbolOf args.settings)
      (monthKeyOfDay (dayOfMs (startOfDay now))) ts =
      [{ id := "cashflow_negative_" ++ monthKeyOfDay (dayOfMs (startOfDay now))
         type := .alert
         category := .cashflow
         title := "Negative Cash Flow"
         message := "You spent " ++
           formatCurrency |sumTx (txInLastDays pd now ts 30) "income" -
             sumTx (txInLastDays pd now ts 30) "expense"| (currencySymbolOf args.settings) ++
           " more than you earned in the last 30 days."
         recommendation := some "Reduce expenses for 7 days and add at least one new income entry or invoice."
         priority := 10 }] := by
    simp only [cashflowRule]
    rw [if_pos (Or.inr hexp), if_pos hneg]
  have hex : ∃ i ∈ cashflowRule pd now (currencySymbolOf args.settings)
      (monthKeyOfDay (dayOfMs (startOfDay now))) ts,
      i.category = InsightCategory.cashflow ∧ i.type = InsightType.alert := by
    rw [hrule]
    exact ⟨_, List.mem_singleton_self _, rfl, rfl⟩
  obtain ⟨i, hi, hc⟩ := hex
  exact ⟨i, (mem_generateInsights pd now args ts hts hne i).mpr (Or.inr (Or.inl hi)), hc⟩

/-- C2, witness: the amended theorem applied to the fixture with one recent
expense of 100 and no income. -/
theorem negative_window_net_alert_witness :
    ∃ i ∈ generateInsights exPd exNow exArgsC2w,
      i.category = .cashflow ∧ i.type = .alert :=
  negative_window_net_alert exPd exNow exArgsC2w _ rfl (by decide)

/-! Claim C3. -/

/-- C3: for every argument object whose transactions list is present, if the
preceding-30-day expense total is positive and the trailing-30-day total
exceeds it by at least 25%, the generator emits the "spending increased"
warning and its message carries exactly `(curr - prev) / prev * 100` rendered
by `toFixed(1)` (rounding to one decimal place). -/
theorem spending_increase_finding (pd : String → Option ℤ) (now : ℤ) (args : Args)
    (ts : List Transaction) (hts : args.transactions = some ts)
    (hprev : 0 < sumTx (txBetweenDaysAgo pd now ts 60 30) "expense")
    (hrise : 25 ≤ (sumTx (txInLastDays pd now ts 30) "expense" -
        sumTx (txBetweenDaysAgo pd now ts 60 30) "expense") /
        sumTx (txBetweenDaysAgo pd now ts 60 30) "expense" * 100) :
    ∃ i ∈ generateInsights pd now args,
      i.id = "spending_increase_" ++ monthKeyOfDay (dayOfMs (startOfDay now)) ∧
      i.type = .warning ∧ i.category = .spending ∧
      i.message = "Your last 30 days spending is up " ++
        ratToFixed ((sumTx (txInLastDays pd now ts 30) "expense" -
          sumTx (txBetweenDaysAgo pd now ts 60 30) "expense") /
          sumTx (txBetweenDaysAgo pd now ts 60 30) "expense" * 100) 1 ++
        "% (" ++ formatCurrency (sumTx (txInLastDays pd now ts 30) "expense")
          (currencySymbolOf args.settings) ++ " vs " ++
        formatCurrency (sumTx (txBetweenDaysAgo pd now ts 60 30) "expense")
          (currencySymbolOf args.settings) ++ ")." := by
  have hmul : 25 * sumTx (txBetweenDaysAgo pd now ts 60 30) "expense" ≤
      (sumTx (txInLastDays pd now ts 30) "expense" -
        sumTx (txBetweenDaysAgo pd now ts 60 30) "expense") * 100 := by
    rw [div_mul_eq_mul_div, le_div_iff₀ hprev] at hrise
    exact hrise
  have hlast : 0 < sumTx (txInLastDays pd now ts 30) "expense" := by linarith
  have hch : (20 : ℚ) ≤ (sumTx (txInLastDays pd now ts 30) "expense" -
      sumTx (txBetweenDaysAgo pd now ts 60 30) "expense") /
      sumTx (txBetweenDaysAgo pd now ts 60 30) "expense" * 100 := by linarith
  have hne : ts ≠ [] := by
    intro he
    rw [he, txBetweenDaysAgo_nil] at hprev
    simp only [sumTx, List.filter_nil, List.foldl_nil] at hprev
    exact lt_irrefl 0 hprev
  have hrule : spendingRule pd now (currencySymbolOf args.settings)
      (monthKeyOfDay (dayOfMs (startOfDay now))) ts =
      [{ id := "spending_increase_" ++ monthKeyOfDay (dayOfMs (startOfDay now))
         type := .warning
         category := .spending
         title := "Spending Increased vs Last Month"
         message := "Your last 30 days spending is up " ++
           ratToFixed ((sumTx (txInLastDays pd now ts 30) "expense" -
             sumTx (txBetweenDaysAgo pd now ts 60 30) "expense") /
             sumTx (txBetweenDaysAgo pd now ts 60 30) "expense" * 100) 1 ++
           "% (" ++ formatCurrency (sumTx (txInLastDays pd now ts 30) "expense")
             (currencySymbolOf args.settings) ++ " vs " ++
           formatCurrency (sumTx (txBetweenDaysAgo pd now ts 60 30) "expense")
             (currencySymbolOf args.settings) ++ ")."
         recommendation := some "Review your biggest expense categories and cut one non-essential item this week."
         priority := 8 }] := by
    simp only [spendingRule]
    rw [if_pos (And.intro hprev hlast), if_pos hch]
  have hex : ∃ i ∈ spendingRule pd now (currencySymbolOf args.settings)
      (monthKeyOfDay (dayOfMs (startOfDay now))) ts,
      i.id = "spending_increase_" ++ monthKeyOfDay (dayOfMs (startOfDay now)) ∧
      i.type = InsightType.warning ∧ i.category = InsightCategory.spending ∧
      i.message = "Your last 30 days spending is up " ++
        ratToFixed ((sumTx (txInLastDays pd now ts 30) "expense" -
          sumTx (txBetweenDaysAgo pd now ts 60 30) "expense") /
          sumTx (txBetweenDaysAgo pd now ts 60 30) "expense" * 100) 1 ++
        "% (" ++ formatCurrency (sumTx (txInLastDays pd now ts 30) "expense")
          (currencySymbolOf args.settings) ++ " vs " ++
        formatCurrency (sumTx (txBetweenDaysAgo pd now ts 60 30) "expense")
          (currencySymbolOf args.settings) ++ ")." := by
    rw [hrule]
    exact ⟨_, List.mem_singleton_self _, rfl, rfl, rfl, rfl⟩
  obtain ⟨i, hi, hc⟩ := hex
  exact ⟨i, (mem_generateInsights pd now args ts hts hne i).mpr (Or.inl hi), hc⟩

/-- C3, witness: the theorem applied to the fixture with a 30% expense rise
(130 in the last 30 days against 100 in the preceding window). -/
theorem spending_increase_finding_witness :
    ∃ i ∈ generateInsights exPd exNow exArgsC3,
      i.id = "spending_increase_" ++ monthKeyOfDay (dayOfMs (startOfDay exNow)) ∧
      i.type = .warning ∧ i.category = .spending ∧
      i.message = "Your last 30 days spending is up " ++
        ratToFixed ((sumTx (txInLastDays exPd exNow (exArgsC3.transactions.getD []) 30) "expense" -
          sumTx (txBetweenDaysAgo exPd exNow (exArgsC3.transactions.getD []) 60 30) "expense") /
          sumTx (txBetweenDaysAgo exPd exNow (exArgsC3.transactions.getD []) 60 30) "expense" * 100) 1 ++
        "% (" ++ formatCurrency (sumTx (txInLastDays exPd exNow (exArgsC3.transactions.getD []) 30) "expense")
          (currencySymbolOf exArgsC3.settings) ++ " vs " ++
        formatCurrency (sumTx (txBetweenDaysAgo exPd exNow (exArgsC3.transactions.getD []) 60 30) "expense")
          (currencySymbolOf exArgsC3.settings) ++ ")." :=
  spending_increase_finding exPd exNow exArgsC3 _ rfl (by decide) (by decide)

/-! Claim C4. -/

/-- C4: on the concrete input with one income of 1000, no tax payments, tax
rate 15 and state tax rate 5, evaluated in June 2025 (month ≥ March), the
generator produces the underfunded-tax warning whose message contains
"200.00" (the estimated tax, 1000 × 20%) and "0.00" (the tax paid). -/
theorem tax_underfunded_example :
    ∃ i ∈ generateInsights exPdC4 exNowC4 exArgsC4,
      i.category = .tax ∧ i.type = .warning ∧
      (∃ a b : String, i.message = a ++ "200.00" ++ b) ∧
      (∃ a b : String, i.message = a ++ "0.00" ++ b) := by
  refine ⟨{ id := "tax_underfunded_2025_6"
            type := .warning
            category := .tax
            title := "Tax Payments May Be Behind"
            message := "Estimated tax on YTD income is about $200.00. You\x27ve logged $0.00 (~0%)."
            recommendation := some "Consider setting aside a fixed % of each income transaction and logging estimated payments."
            priority := 7 }, ?_, rfl, rfl,
    ⟨"Estimated tax on YTD income is about $", ". You\x27ve logged $0.00 (~0%).", ?_⟩,
    ⟨"Estimated tax on YTD income is about $200.00. You\x27ve logged $", " (~0%).", ?_⟩⟩
  · decide
  · decide
  · decide

/-! Claim C10. -/

/-- C10: whenever the transactions argument is missing (null/undefined) or the
empty list, the generator returns the empty list no matter what invoices, tax
payments or settings are supplied. -/
theorem empty_transactions_no_insights (pd : String → Option ℤ) (now : ℤ)
    (oinv : Option (List Invoice)) (opay : Option (List TaxPayment))
    (oset : Option UserSettings) :
    generateInsights pd now ⟨none, oinv, opay, oset⟩ = [] ∧
    generateInsights pd now ⟨some [], oinv, opay, oset⟩ = [] := by
  constructor <;> rfl

/-! Dismissal-store lemmas. -/

theorem mem_foldl_dedupStep (l acc : List String) (x : String) :
    x ∈ l.foldl dedupStep acc ↔ x ∈ acc ∨ x ∈ l := by
  induction l generalizing acc with
  | nil => simp
  | cons a l ih =>
    simp only [List.foldl_cons, ih]
    by_cases h : a ∈ acc
    · rw [dedupStep, if_pos h]
      simp only [List.mem_cons]
      constructor
      · rintro (hx | hx)
        · exact Or.inl hx
        · exact Or.inr (Or.inr hx)
      · rintro (hx | rfl | hx)
        · exact Or.inl hx
        · exact Or.inl h
        · exact Or.inr hx
    · rw [dedupStep, if_neg h]
      simp only [List.mem_append, List.mem_singleton, List.mem_cons]
      tauto

theorem nodup_foldl_dedupStep (l acc : List String) (hacc : acc.Nodup) :
    (l.foldl dedupStep acc).Nodup := by
  induction l generalizing acc with
  | nil => simpa
  | cons a l ih =>
    simp only [List.foldl_cons]
    apply ih
    rw [dedupStep]
    split
    · exact hacc
    · simp [List.nodup_append, hacc, *]

theorem foldl_dedupStep_of_nodup (l acc : List String) (hl : l.Nodup)
    (hdisj : ∀ x ∈ l, x ∉ acc) : l.foldl dedupStep acc = acc ++ l := by
  induction l generalizing acc with
  | nil => simp
  | cons a l ih =>
    simp only [List.foldl_cons]
    rw [dedupStep, if_neg (hdisj a (List.mem_cons_self a l))]
    rw [ih (acc ++ [a]) (List.Nodup.of_cons hl) ?_]
    · simp
    · intro x hx
      simp only [List.mem_append, List.mem_singleton]
      rintro (hx' | rfl)
      · exact hdisj x (List.mem_cons_of_mem a hx) hx'
      · exact (List.nodup_cons.mp hl).1 hx

theorem mem_jsDedup (ids : List String) (x : String) :
    x ∈ jsDedup ids ↔ x ∈ ids := by
  rw [jsDedup, mem_foldl_dedupStep]
  simp

theorem jsDedup_nodup (ids : List String) : (jsDedup ids).Nodup :=
  nodup_foldl_dedupStep ids [] List.nodup_nil

theorem jsDedup_of_nodup (m : List String) (h : m.Nodup) : jsDedup m = m := by
  rw [jsDedup, foldl_dedupStep_of_nodup m [] h (by simp)]
  simp

theorem filterMap_jsonStr_map_str (l : List String) :
    (l.map Json.str).filterMap jsonStr = l := by
  induction l with
  | nil => rfl
  | cons a l ih => simp [jsonStr, ih]

theorem set_not_unavailable (ids : List String) (st : StorageCell)
    (h : st ≠ .unavailable) :
    setDismissedInsightIds ids st = .stored (.arr ((jsDedup ids).map Json.str)) := by
  cases st with
  | unavailable => exact absurd rfl h
  | empty => rfl
  | corrupt => rfl
  | stored v => rfl

theorem get_set (ids : List String) (st : StorageCell) (h : st ≠ .unavailable) :
    getDismissedInsightIds (setDismissedInsightIds ids st) = jsDedup ids := by
  rw [set_not_unavailable ids st h]
  exact filterMap_jsonStr_map_str (jsDedup ids)

theorem jsDedup_snoc_self (m : List String) (x : String) :
    jsDedup (jsDedup (m ++ [x]) ++ [x]) = jsDedup (m ++ [x]) := by
  have hmem : x ∈ jsDedup (m ++ [x]) := (mem_jsDedup _ _).mpr (by simp)
  have hnd : (jsDedup (m ++ [x])).Nodup := jsDedup_nodup _
  rw [jsDedup, List.foldl_append]
  have hfix : List.foldl dedupStep [] (jsDedup (m ++ [x])) = jsDedup (m ++ [x]) :=
    jsDedup_of_nodup _ hnd
  rw [hfix]
  simp only [List.foldl_cons, List.foldl_nil]
  rw [dedupStep, if_pos hmem]

/-! Claim C5. -/

/-- C5: after the dismissal store is overwritten with every id currently
returned by the generator on a given input, `getInsightCount` on that input is
0; and in general `getInsightCount` is exactly the number of generated
insights whose id is not in the dismissed set. -/
theorem insight_count_after_dismiss_all (pd : String → Option ℤ) (now : ℤ)
    (args : Args) (st : StorageCell) (h : st ≠ .unavailable) :
    getInsightCount pd now
      (setDismissedInsightIds ((generateInsights pd now args).map Insight.id) st)
      args = 0 ∧
    ∀ st' : StorageCell, getInsightCount pd now st' args =
      ((generateInsights pd now args).filter
        (fun i => decide (i.id ∉ getDismissedInsightIds st'))).length := by
  refine ⟨?_, fun st' => rfl⟩
  unfold getInsightCount
  rw [get_set _ st h, List.length_eq_zero, List.filter_eq_nil_iff]
  intro i hi
  have hmem : i.id ∈ jsDedup ((generateInsights pd now args).map Insight.id) :=
    (mem_jsDedup _ _).mpr (List.mem_map_of_mem Insight.id hi)
  simp [hmem]

/-- C5, witness: dismissing every generated id on the overdue fixture drives
the badge count to 0. -/
theorem insight_count_after_dismiss_all_witness :
    getInsightCount exPd exNow
      (setDismissedInsightIds
        ((generateInsights exPd exNow exArgsC1).map Insight.id) .empty)
      exArgsC1 = 0 :=
  (insight_count_after_dismiss_all exPd exNow exArgsC1 .empty
    (fun h => StorageCell.noConfusion h)).1

/-! Claim C6. -/

/-- C6: for every list of ids and every state of an available store, replacing
the stored set with the list and reading it back yields exactly the
deduplicated set of those ids — equal to the input as a finite set, with no
duplicates. -/
theorem replace_get_roundtrip (ids : List String) (st : StorageCell)
    (h : st ≠ .unavailable) :
    (getDismissedInsightIds (setDismissedInsightIds ids st)).toFinset =
      ids.toFinset ∧
    (getDismissedInsightIds (setDismissedInsightIds ids st)).Nodup := by
  rw [get_set ids st h]
  refine ⟨?_, jsDedup_nodup ids⟩
  ext x
  simp [List.mem_toFinset, mem_jsDedup]

/-- C6, witness: the round-trip theorem applied to a concrete list with a
duplicate, on an initially empty store. -/
theorem replace_get_roundtrip_witness :
    (getDismissedInsightIds
        (setDismissedInsightIds ["a", "b", "a"] .empty)).toFinset =
      (["a", "b", "a"] : List String).toFinset ∧
    (getDismissedInsightIds (setDismissedInsightIds ["a", "b", "a"] .empty)).Nodup :=
  replace_get_roundtrip ["a", "b", "a"] .empty (fun h => StorageCell.noConfusion h)

/-! Claim C7. -/

/-- C7: the store's add operation is idempotent — adding the same id twice
leaves the stored state (hence the stored set) identical to adding it once.
`dismissInsightId` is modelled from the spec, being absent from the sources. -/
theorem dismiss_add_idempotent (i : String) (st : StorageCell) :
    dismissInsightId i (dismissInsightId i st) = dismissInsightId i st := by
  have key : ∀ st' : StorageCell, st' ≠ .unavailable →
      dismissInsightId i (dismissInsightId i st') = dismissInsightId i st' := by
    intro st' h
    unfold dismissInsightId
    rw [set_not_unavailable _ st' h]
    rw [set_not_unavailable _ _ (fun hc => StorageCell.noConfusion hc)]
    have hget : getDismissedInsightIds
        (.stored (.arr ((jsDedup (getDismissedInsightIds st' ++ [i])).map Json.str))) =
        jsDedup (getDismissedInsightIds st' ++ [i]) :=
      filterMap_jsonStr_map_str _
    rw [hget, jsDedup_snoc_self]
  cases st with
  | unavailable => rfl
  | empty => exact key .empty (fun h => StorageCell.noConfusion h)
  | corrupt => exact key .corrupt (fun h => StorageCell.noConfusion h)
  | stored v => exact key (.stored v) (fun h => StorageCell.noConfusion h)

/-! Claim C8. -/

/-- C8: the dismissal-store read degrades on every failure mode — a throwing
store, an absent raw value, raw text that fails JSON parsing, or a stored
non-array JSON value all yield the empty list — and on a stored JSON array it
returns exactly the string elements, filtering out every non-string
element. -/
theorem get_dismissed_resilient (st : StorageCell) :
    ((∀ l : List Json, st ≠ .stored (.arr l)) → getDismissedInsightIds st = []) ∧
    (∀ l : List Json, st = .stored (.arr l) →
      getDismissedInsightIds st = l.filterMap jsonStr) := by
  constructor
  · intro h
    cases st with
    | unavailable => rfl
    | empty => rfl
    | corrupt => rfl
    | stored v =>
      cases v with
      | null => rfl
      | bool b => rfl
      | num q => rfl
      | str s => rfl
      | arr l => exact absurd rfl (h l)
      | obj fs => rfl
  · rintro l rfl
    rfl

/-- C8, witness: a corrupt cell reads as the empty set, and a stored array
with a non-string element reads as its string elements only. -/
theorem get_dismissed_resilient_witness :
    getDismissedInsightIds .corrupt = [] ∧
    getDismissedInsightIds
      (.stored (.arr [Json.str "a", Json.num 3, Json.str "b"])) = ["a", "b"] :=
  ⟨(get_dismissed_resilient .corrupt).1 (fun _ h => StorageCell.noConfusion h),
   (get_dismissed_resilient _).2 [Json.str "a", Json.num 3, Json.str "b"] rfl⟩

/-! Normalization lemmas: replacing every non-numeric amount by an explicit 0
leaves the generator's behaviour unchanged, because amounts are only ever read
through `Math.abs(Number(x) || 0)`. -/

theorem absNum_normAmt (a : Option ℚ) : absNum (normAmt a) = absNum a := by
  cases a <;> rfl

theorem absNum_normTx (t : Transaction) :
    absNum (normTx t).amount = absNum t.amount := absNum_normAmt t.amount

theorem absNum_normInv (v : Invoice) :
    absNum (normInv v).amount = absNum v.amount := absNum_normAmt v.amount

theorem absNum_normPay (p : TaxPayment) :
    absNum (normPay p).amount = absNum p.amount := absNum_normAmt p.amount

theorem filter_map_normInv_of_inv (p : Invoice → Bool)
    (hp : ∀ v, p (normInv v) = p v) (l : List Invoice) :
    (l.map normInv).filter p = (l.filter p).map normInv := by
  rw [List.filter_map]
  exact congrArg (List.map normInv) (List.filter_congr (fun v _ => hp v))

theorem foldl_absNum_map_normTx (l : List Transaction) (c : ℚ) :
    (l.map normTx).foldl (fun s t => s + absNum t.amount) c =
      l.foldl (fun s t => s + absNum t.amount) c := by
  rw [List.foldl_map]
  exact List.foldl_ext _ _ c (fun s t _ => by
    show s + absNum (normTx t).amount = s + absNum t.amount
    rw [absNum_normTx])

theorem foldl_absNum_map_normInv (l : List Invoice) (c : ℚ) :
    (l.map normInv).foldl (fun s v => s + absNum v.amount) c =
      l.foldl (fun s v => s + absNum v.amount) c := by
  rw [List.foldl_map]
  exact List.foldl_ext _ _ c (fun s v _ => by
    show s + absNum (normInv v).amount = s + absNum v.amount
    rw [absNum_normInv])

theorem foldl_absNum_map_normPay (l : List TaxPayment) (c : ℚ) :
    (l.map normPay).foldl (fun s p => s + absNum p.amount) c =
      l.foldl (fun s p => s + absNum p.amount) c := by
  rw [List.foldl_map]
  exact List.foldl_ext _ _ c (fun s p _ => by
    show s + absNum (normPay p).amount = s + absNum p.amount
    rw [absNum_normPay])

theorem foldl_upsert_map_normTx (l : List Transaction) (acc : List (String × ℚ)) :
    (l.map normTx).foldl (fun m t => upsert (catOf t.category) (absNum t.amount) m) acc =
      l.foldl (fun m t => upsert (catOf t.category) (absNum t.amount) m) acc := by
  rw [List.foldl_map]
  exact List.foldl_ext _ _ acc (fun m t _ => by
    show upsert (catOf (normTx t).category) (absNum (normTx t).amount) m =
      upsert (catOf t.category) (absNum t.amount) m
    rw [absNum_normTx]
    rfl)

theorem txInLastDays_map_norm (pd : String → Option ℤ) (now : ℤ)
    (l : List Transaction) (days : ℤ) :
    txInLastDays pd now (l.map normTx) days = (txInLastDays pd now l days).map normTx := by
  simp only [txInLastDays]
  rw [List.filter_map]
  exact congrArg (List.map normTx) (List.filter_congr (fun t _ => rfl))

theorem txBetweenDaysAgo_map_norm (pd : String → Option ℤ) (now : ℤ)
    (l : List Transaction) (a b : ℤ) :
    txBetweenDaysAgo pd now (l.map normTx) a b =
      (txBetweenDaysAgo pd now l a b).map normTx := by
  simp only [txBetweenDaysAgo]
  rw [List.filter_map]
  exact congrArg (List.map normTx) (List.filter_congr (fun t _ => rfl))

theorem filter_map_norm_type (l : List Transaction) (ty : String) :
    (l.map normTx).filter (fun t => decide (t.type = ty)) =
      (l.filter (fun t => decide (t.type = ty))).map normTx := by
  rw [List.filter_map]
  exact congrArg (List.map normTx) (List.filter_congr (fun t _ => rfl))

theorem sumTx_map_norm (l : List Transaction) (ty : String) :
    sumTx (l.map normTx) ty = sumTx l ty := by
  unfold sumTx
  rw [filter_map_norm_type l ty, foldl_absNum_map_normTx]

theorem filter_map_norm_expense (l : List Transaction) :
    (l.map normTx).filter (fun t => decide (t.type = "expense")) =
      (l.filter (fun t => decide (t.type = "expense"))).map normTx :=
  filter_map_norm_type l "expense"

theorem spendingRule_map_norm (pd : String → Option ℤ) (now : ℤ) (cs mk : String)
    (l : List Transaction) :
    spendingRule pd now cs mk (l.map normTx) = spendingRule pd now cs mk l := by
  simp only [spendingRule, txInLastDays_map_norm, txBetweenDaysAgo_map_norm, sumTx_map_norm]

theorem cashflowRule_map_norm (pd : String → Option ℤ) (now : ℤ) (cs mk : String)
    (l : List Transaction) :
    cashflowRule pd now cs mk (l.map normTx) = cashflowRule pd now cs mk l := by
  simp only [cashflowRule, txInLastDays_map_norm, sumTx_map_norm]

theorem patternRule_map_norm (pd : String → Option ℤ) (now : ℤ) (mk : String)
    (l : List Transaction) :
    patternRule pd now mk (l.map normTx) = patternRule pd now mk l := by
  simp only [patternRule, txInLastDays_map_norm, filter_map_norm_expense,
    foldl_absNum_map_normTx, foldl_upsert_map_normTx]

theorem isOverdue_normInv (pd : String → Option ℤ) (today : ℤ) (v : Invoice) :
    isOverdue pd today (normInv v) = isOverdue pd today v := rfl

theorem invoiceRule_map_norm (pd : String → Option ℤ) (now : ℤ) (cs mk : String)
    (l : List Invoice) :
    invoiceRule pd now cs mk (l.map normInv) = invoiceRule pd now cs mk l := by
  simp only [invoiceRule]
  rw [filter_map_normInv_of_inv _ (fun v => isOverdue_normInv pd _ v) l]
  rw [filter_map_normInv_of_inv (fun v => decide (v.status = some "unpaid")) (fun v => rfl) l]
  simp only [List.length_map, List.map_map]
  rw [show ((l.filter (isOverdue pd (startOfDay now))).map
      ((fun inv => parseDateOpt pd inv.due) ∘ normInv)) =
      ((l.filter (isOverdue pd (startOfDay now))).map (fun inv => parseDateOpt pd inv.due))
    from rfl]
  rw [foldl_absNum_map_normInv]

theorem filter_map_norm_income_year (l : List Transaction) (y : ℤ) :
    (l.map normTx).filter (fun t => decide (t.type = "income") &&
        (match t.date with
         | some s => strStartsWith s (toString y)
         | none => false)) =
      (l.filter (fun t => decide (t.type = "income") &&
        (match t.date with
         | some s => strStartsWith s (toString y)
         | none => false))).map normTx := by
  rw [List.filter_map]
  exact congrArg (List.map normTx) (List.filter_congr (fun t _ => rfl))

theorem filter_map_norm_pay_year (l : List TaxPayment) (y : ℤ) :
    (l.map normPay).filter (fun p =>
        match p.date with
        | some s => strStartsWith s (toString y)
        | none => false) =
      (l.filter (fun p =>
        match p.date with
        | some s => strStartsWith s (toString y)
        | none => false)).map normPay := by
  rw [List.filter_map]
  exact congrArg (List.map normPay) (List.filter_congr (fun p _ => rfl))

theorem taxRule_map_norm (now : ℤ) (cs : String) (l : List Transaction)
    (ps : List TaxPayment) (os : Option UserSettings) :
    taxRule now cs (l.map normTx) (ps.map normPay) os = taxRule now cs l ps os := by
  simp only [taxRule, filter_map_norm_income_year, filter_map_norm_pay_year,
    foldl_absNum_map_normTx, foldl_absNum_map_normPay]

theorem optmap_getD_normInv (o : Option (List Invoice)) :
    (o.map (List.map normInv)).getD [] = (o.getD []).map normInv := by
  cases o <;> rfl

theorem optmap_getD_normPay (o : Option (List TaxPayment)) :
    (o.map (List.map normPay)).getD [] = (o.getD []).map normPay := by
  cases o <;> rfl

theorem generateInsights_norm (pd : String → Option ℤ) (now : ℤ) (args : Args) :
    generateInsights pd now (normArgs args) = generateInsights pd now args := by
  obtain ⟨otx, oinv, opay, oset⟩ := args
  cases otx with
  | none => rfl
  | some ts =>
    show generateInsights pd now ⟨some (ts.map normTx),
      oinv.map (List.map normInv), opay.map (List.map normPay), oset⟩ =
      generateInsights pd now ⟨some ts, oinv, opay, oset⟩
    simp only [generateInsights, List.length_map, optmap_getD_normInv,
      optmap_getD_normPay, spendingRule_map_norm, cashflowRule_map_norm,
      patternRule_map_norm, invoiceRule_map_norm, taxRule_map_norm]

theorem not_mem_txInLastDays_of_invalid (pd : String → Option ℤ) (now : ℤ)
    (ts : List Transaction) (days : ℤ) (t : Transaction)
    (hbad : parseDateOpt pd t.date = none) : t ∉ txInLastDays pd now ts days := by
  intro hmem
  have hp := List.of_mem_filter hmem
  simp [hbad] at hp

theorem not_mem_txBetweenDaysAgo_of_invalid (pd : String → Option ℤ) (now : ℤ)
    (ts : List Transaction) (a b : ℤ) (t : Transaction)
    (hbad : parseDateOpt pd t.date = none) : t ∉ txBetweenDaysAgo pd now ts a b := by
  intro hmem
  have hp := List.of_mem_filter hmem
  simp [hbad] at hp

/-! Claim C9. -/

/-- C9: the generator is total on arbitrary (malformed) input, and the two
defensive coercions hold: replacing every non-numeric amount by an explicit 0
in all three record lists changes nothing in the output, and a record whose
date does not parse is excluded from every date-windowed filter (both the
trailing-window and the between-windows one). -/
theorem generateInsights_malformed_safe (pd : String → Option ℤ) (now : ℤ)
    (args : Args) (ts : List Transaction) (days a b : ℤ) (t : Transaction)
    (hbad : parseDateOpt pd t.date = none) :
    generateInsights pd now (normArgs args) = generateInsights pd now args ∧
    t ∉ txInLastDays pd now ts days ∧
    t ∉ txBetweenDaysAgo pd now ts a b :=
  ⟨generateInsights_norm pd now args,
   not_mem_txInLastDays_of_invalid pd now ts days t hbad,
   not_mem_txBetweenDaysAgo_of_invalid pd now ts a b t hbad⟩

/-- C9, witness: the safety theorem applied to the fully malformed fixture
(non-numeric amounts everywhere, unparseable date strings). -/
theorem generateInsights_malformed_safe_witness :
    generateInsights exPd exNow (normArgs exArgsC9) =
      generateInsights exPd exNow exArgsC9 ∧
    (⟨"expense", none, none, some "garbage"⟩ : Transaction) ∉
      txInLastDays exPd exNow (exArgsC9.transactions.getD []) 30 ∧
    (⟨"expense", none, none, some "garbage"⟩ : Transaction) ∉
      txBetweenDaysAgo exPd exNow (exArgsC9.transactions.getD []) 60 30 :=
  generateInsights_malformed_safe exPd exNow exArgsC9
    (exArgsC9.transactions.getD []) 30 60 30
    ⟨"expense", none, none, some "garbage"⟩ (by decide)

end Moniezi
